import Mathlib

/-!
Verification of the Speechify conversational text-to-speech bot.

The development shallowly embeds the per-user conversation state machine of
`src/handlers/common.py`, the preference store of `src/db/crud.py`, and the
configuration constants of `src/core/config.py`.  External collaborators
(language detection via langid, the translation client, the speech synthesis
client) are passed in as function parameters; handler outcomes record the
replies sent to the user, the external calls made, and any exception that
reached the router error handlers.
-/

namespace Speechify

/-- The language name to code map of core/config.py (`LANGUAGE_MAP`). -/
def LANGUAGE_MAP : List (String × String) :=
  [("English", "en"), ("French", "fr"), ("Spanish", "es"), ("Russian", "ru")]

/-- The fixed set of voice actor identifiers of core/config.py (`ENG_VOICE_ACTORS`). -/
def ENG_VOICE_ACTORS : List String :=
  ["Joanna", "Matthew", "Salli", "Justin", "Kimberly", "Ivy", "Raveena", "Joey"]

/-- The preference store: the `User` table of db/models.py, a mapping from
`user_id` (primary key, unique) to the `eng_voice_actor` string, embedded as an
association list. -/
abbrev DB := List (Nat × String)

/-- db/crud.py `get_user`: fetch the row with the given user id, if any.  The
row is represented by its `eng_voice_actor` field, the only non-key column. -/
def get_user (db : DB) (user_id : Nat) : Option String :=
  (db.find? (fun p => p.1 == user_id)).map (fun p => p.2)

/-- db/crud.py `create_user`: return the existing user unchanged, otherwise
insert a new row with the given voice actor (the Python default is `""`). -/
def create_user (db : DB) (user_id : Nat) (eng_voice_actor : String) : DB :=
  if (get_user db user_id).isSome then db else db ++ [(user_id, eng_voice_actor)]

/-- db/crud.py `get_voice_actor`: `user.eng_voice_actor if user else None`. -/
def get_voice_actor (db : DB) (user_id : Nat) : Option String :=
  get_user db user_id

/-- db/crud.py `update_voice_actor`: set the row's voice actor and report
`True` when the user exists, otherwise leave the store unchanged and report
`False`. -/
def update_voice_actor (db : DB) (user_id : Nat) (new_voice_actor : String) :
    DB × Bool :=
  if (get_user db user_id).isSome then
    (db.map (fun p => if p.1 == user_id then (p.1, new_voice_actor) else p), true)
  else
    (db, false)

/-- Python truthiness of an `str | None` value: `None` and `""` are falsy. -/
def isTruthy : Option String → Bool
  | none => false
  | some s => s ≠ ""

/-- The aiogram FSM state of a session: `None` (no state, written `idle` here),
`TTSTextState.selected_languages`, or `TTSTextState.text`
(states/lang_states.py). -/
inductive Phase where
  | idle
  | selected_languages
  | text
deriving DecidableEq, Repr

/-- A per-user conversation session: the FSM state plus the FSM data dict,
whose two keys are `selected_languages` and `text`; `none` models an absent
key. -/
structure Session where
  phase : Phase
  selected_languages : Option (List String)
  text : Option String
deriving DecidableEq, Repr

/-- `state.clear()` leaves no state and an empty data dict. -/
def clearedSession : Session := ⟨Phase.idle, none, none⟩

/-- The fresh session of a user who has not entered any flow. -/
def initialSession : Session := clearedSession

/-- The two custom exception classes of handlers/common.py that reach the
router error handlers: `LanguageError` and `UnexpectedError`. -/
inductive Err where
  | language
  | unexpected
deriving DecidableEq, Repr

/-- An abstract tag for each distinct `message.answer` text a handler can
send. -/
inductive Reply where
  | welcome
  | settingsMenu
  | chooseVoiceActor
  | invalidVoiceActor
  | youHaveChosen (voice : String)
  | mainMenu
  | translatePrompt
  | selectVoiceFirst
  | typeTextPrompt
  | selectSourceLanguage
  | selectTargetLanguage
  | invalidLanguage
  | addMoreOrConvert
  | voiceMessage
  | nothingToConvert
  | languageErrorReply
  | unexpectedErrorReply
  | unknownMessage
deriving DecidableEq, Repr

/-- The observable outcome of dispatching one message: the session afterwards
(error-handler transitions included), the replies sent, the translation calls
made as (text, source, target), the synthesis calls made as (text, voice), and
the exception, if any, that reached the router error handlers. -/
structure HandlerResult where
  session : Session
  replies : List Reply
  translateCalls : List (String × String × String)
  synthCalls : List (String × Option String)
  raised : Option Err
deriving DecidableEq, Repr

/-- A result that changes neither the session nor the store and raises
nothing. -/
def plainReply (s : Session) (r : Reply) : HandlerResult :=
  { session := s, replies := [r], translateCalls := [], synthCalls := [],
    raised := none }

/-- handlers/common.py `text_for_speech_handler` (router filter:
`TTSTextState.text`): detect the language of the new segment; when
`selected_languages` is non-empty and the detected language differs from its
first entry, raise `LanguageError`, which `handle_language_error` turns into
an error reply plus `state.set_state(TTSTextState.text)`; otherwise append the
segment to the previous text with a single separating space.  `detect` stands
for `langid.classify`. -/
def text_for_speech_handler (detect : String → String) (s : Session)
    (new_text : String) : HandlerResult :=
  let languages := s.selected_languages.getD []
  let previous_text := s.text.getD ""
  let detected_language := detect new_text
  if languages ≠ [] ∧ detected_language ≠ languages.headD "" then
    { session := { s with phase := Phase.text },
      replies := [Reply.languageErrorReply],
      translateCalls := [], synthCalls := [], raised := some Err.language }
  else
    let updated_text := previous_text ++ (if previous_text ≠ "" then " " else "") ++ new_text
    { session := { s with text := some updated_text },
      replies := [Reply.addMoreOrConvert],
      translateCalls := [], synthCalls := [], raised := none }

/-- handlers/common.py `convert_text_to_speech` (router filters:
`F.text == "Convert it"` and `TTSTextState.text`).  The handler body runs
inside a `try` whose `finally` clause executes `state.clear()` on every exit,
the early `return` of the empty-text branch included; a raised `LanguageError`
or `UnexpectedError` is afterwards handled by the router error handlers, which
reply and set the state back to `TTSTextState.text`.  `translate_from_one_
language_to_another` first logs a string indexing `languages[0]` and
`languages[1]`, so a single-entry language list raises `UnexpectedError`
before any detection; with two entries it raises `LanguageError` on detection
mismatch, else calls the translator.  `detect` stands for `langid.classify`
and `tr text src dst` for the translator's output text. -/
def convert_text_to_speech (detect : String → String)
    (tr : String → String → String → String)
    (db : DB) (user_id : Nat) (s : Session) : HandlerResult :=
  let full_text := s.text.getD ""
  if full_text = "" then
    { session := clearedSession, replies := [Reply.nothingToConvert],
      translateCalls := [], synthCalls := [], raised := none }
  else
    let voice_actor := get_voice_actor db user_id
    match s.selected_languages.getD [] with
    | [] =>
      { session := clearedSession, replies := [Reply.voiceMessage],
        translateCalls := [], synthCalls := [(full_text, voice_actor)],
        raised := none }
    | [_l0] =>
      { session := { clearedSession with phase := Phase.text },
        replies := [Reply.unexpectedErrorReply],
        translateCalls := [], synthCalls := [], raised := some Err.unexpected }
    | l0 :: l1 :: _rest =>
      if detect full_text ≠ l0 then
        { session := { clearedSession with phase := Phase.text },
          replies := [Reply.languageErrorReply],
          translateCalls := [], synthCalls := [], raised := some Err.language }
      else
        let translated := tr full_text l0 l1
        let voice := if l1 = "ru" then some "Tatyana" else voice_actor
        { session := clearedSession, replies := [Reply.voiceMessage],
          translateCalls := [(full_text, l0, l1)],
          synthCalls := [(translated, voice)], raised := none }

/-- handlers/common.py `text_to_speech_handler` (router filter:
`F.text == "Synthesize text into voice"`): with a truthy stored voice actor,
ask about translation; otherwise prompt for a voice first.  The FSM state is
not touched either way. -/
def text_to_speech_handler (db : DB) (user_id : Nat) (s : Session) :
    HandlerResult :=
  let voice_act := get_voice_actor db user_id
  if isTruthy voice_act then
    plainReply s Reply.translatePrompt
  else
    plainReply s Reply.selectVoiceFirst

/-- handlers/common.py `without_translation_handler` (router filter:
`F.text == "No"`): prompt for text and enter `TTSTextState.text`; the data
dict is untouched. -/
def without_translation_handler (s : Session) : HandlerResult :=
  { session := { s with phase := Phase.text },
    replies := [Reply.typeTextPrompt],
    translateCalls := [], synthCalls := [], raised := none }

/-- handlers/common.py `with_translation_handler` (router filter:
`F.text == "Yes"`): prompt for the source language, enter
`TTSTextState.selected_languages`, and set `selected_languages` to `[]`. -/
def with_translation_handler (s : Session) : HandlerResult :=
  { session := { s with phase := Phase.selected_languages,
                        selected_languages := some [] },
    replies := [Reply.selectSourceLanguage],
    translateCalls := [], synthCalls := [], raised := none }

/-- Membership lookup of core/config.py's `LANGUAGE_MAP` dict. -/
def lookupLanguage (name : String) : Option String :=
  (LANGUAGE_MAP.find? (fun p => p.1 == name)).map (fun p => p.2)

/-- handlers/common.py `process_language_selection` (router filter:
`TTSTextState.selected_languages`): an unrecognised language name re-prompts
without touching state; a recognised one has its code appended to the stored
`selected_languages` list.  After the first code the handler asks for the
target language and stays in the same state; otherwise it asks for text and
enters `TTSTextState.text`.  Reading `current_state["selected_languages"]`
with the key absent raises `KeyError`, converted to `UnexpectedError`, whose
handler replies and sets the state to `TTSTextState.text`. -/
def process_language_selection (s : Session) (msg : String) : HandlerResult :=
  match lookupLanguage msg with
  | none => plainReply s Reply.invalidLanguage
  | some language_code =>
    match s.selected_languages with
    | none =>
      { session := { s with phase := Phase.text },
        replies := [Reply.unexpectedErrorReply],
        translateCalls := [], synthCalls := [], raised := some Err.unexpected }
    | some langs =>
      let selected := langs ++ [language_code]
      if selected.length = 1 then
        { session := { s with selected_languages := some selected },
          replies := [Reply.selectTargetLanguage],
          translateCalls := [], synthCalls := [], raised := none }
      else
        { session := { s with phase := Phase.text,
                              selected_languages := some selected },
          replies := [Reply.typeTextPrompt],
          translateCalls := [], synthCalls := [], raised := none }

/-- handlers/common.py `language_translation_handler_en_to_ru` (router filter:
`F.text == "From english to russian"`). -/
def language_translation_handler_en_to_ru (s : Session) : HandlerResult :=
  { session := { s with phase := Phase.text,
                        selected_languages := some ["en", "ru"] },
    replies := [Reply.typeTextPrompt],
    translateCalls := [], synthCalls := [], raised := none }

/-- handlers/common.py `language_translation_handler_ru_to_en` (router filter:
`F.text == "From russian to english"`). -/
def language_translation_handler_ru_to_en (s : Session) : HandlerResult :=
  { session := { s with phase := Phase.text,
                        selected_languages := some ["ru", "en"] },
    replies := [Reply.typeTextPrompt],
    translateCalls := [], synthCalls := [], raised := none }

/-- handlers/common.py `back_handler` (router filter:
`F.text == "⬅️ Main menu"`): show the main menu and `state.clear()`. -/
def back_handler (_s : Session) : HandlerResult :=
  { session := clearedSession, replies := [Reply.mainMenu],
    translateCalls := [], synthCalls := [], raised := none }

/-- The outcome of the settings voice-selection callback: the store
afterwards and the replies sent. -/
structure CallbackResult where
  db : DB
  replies : List Reply
deriving DecidableEq, Repr

/-- handlers/common.py `process_callback_button_settings` (router filter:
`F.data.in_(ENG_VOICE_ACTORS)`): re-prompt on an invalid voice, otherwise call
`update_voice_actor` — whose boolean result is discarded — and confirm the
choice to the user. -/
def process_callback_button_settings (db : DB) (user_id : Nat)
    (chosen_voice : String) : CallbackResult :=
  if chosen_voice ∈ ENG_VOICE_ACTORS then
    let updated := update_voice_actor db user_id chosen_voice
    { db := updated.1, replies := [Reply.youHaveChosen chosen_voice] }
  else
    { db := db, replies := [Reply.invalidVoiceActor] }

/-- One step of the message dispatcher: the aiogram routers check handlers in
registration order (handlers/commands.py first, then handlers/common.py), so
the plain-text filters of the menu handlers are tried before the
state-filtered handlers registered below them.  Callback-query events touch
only the store, never the FSM session, and are modelled separately. -/
def dispatch (detect : String → String)
    (tr : String → String → String → String)
    (db : DB) (user_id : Nat) (s : Session) (msg : String) : HandlerResult :=
  if msg = "/start" then plainReply s Reply.welcome
  else if msg = "Settings" then plainReply s Reply.settingsMenu
  else if msg = "Change voice actor" then plainReply s Reply.chooseVoiceActor
  else if msg = "⬅️ Main menu" then back_handler s
  else if msg = "Synthesize text into voice" then
    text_to_speech_handler db user_id s
  else if msg = "No" then without_translation_handler s
  else if msg = "Yes" then with_translation_handler s
  else if s.phase = Phase.selected_languages then
    process_language_selection s msg
  else if msg = "From english to russian" then
    language_translation_handler_en_to_ru s
  else if msg = "From russian to english" then
    language_translation_handler_ru_to_en s
  else if msg = "Convert it" ∧ s.phase = Phase.text then
    convert_text_to_speech detect tr db user_id s
  else if s.phase = Phase.text then
    text_for_speech_handler detect s msg
  else plainReply s Reply.unknownMessage

/-- The sessions reachable from a fresh session by any sequence of incoming
text messages, for fixed detection and translation oracles and a fixed
store. -/
inductive Reachable (detect : String → String)
    (tr : String → String → String → String) (db : DB) (user_id : Nat) :
    Session → Prop where
  | init : Reachable detect tr db user_id initialSession
  | step (s : Session) (msg : String) :
      Reachable detect tr db user_id s →
      Reachable detect tr db user_id (dispatch detect tr db user_id s msg).session

/-- Applying a sequence of voice selections to the store, each through
`update_voice_actor`. -/
def applyUpdates (db : DB) (ops : List (Nat × String)) : DB :=
  ops.foldl (fun d p => (update_voice_actor d p.1 p.2).1) db

/-- Submitting a list of text segments one after another to the accumulation
handler, keeping only the session evolution. -/
def accumulate (detect : String → String) (s : Session)
    (segs : List String) : Session :=
  segs.foldl (fun st seg => (text_for_speech_handler detect st seg).session) s

/-- Modelled from the spec: the submitted segments joined by a single space,
in arrival order, with no trimming or other normalization. -/
def joinedBySpace : List String → String
  | [] => ""
  | [t] => t
  | t :: rest => t ++ " " ++ joinedBySpace rest

/-- The accumulation handler's concatenation step: the previous text, a space
when the previous text is non-empty, then the new segment. -/
def joinStep (previous_text new_text : String) : String :=
  previous_text ++ (if previous_text ≠ "" then " " else "") ++ new_text

/-- The inductive session invariant: the stored language list never exceeds
two entries, and in the language-selection state it is present with at most
one entry. -/
def sessionInv (s : Session) : Prop :=
  (∀ l, s.selected_languages = some l → l.length ≤ 2) ∧
  (s.phase = Phase.selected_languages →
    ∃ l, s.selected_languages = some l ∧ l.length ≤ 1)

-- ------------------------------------------------------------------
-- Preference store lemmas
-- ------------------------------------------------------------------

lemma get_user_map_set (db : DB) (user_id : Nat) (v : String)
    (h : (get_user db user_id).isSome) :
    get_user (db.map (fun p => if p.1 == user_id then (p.1, v) else p))
      user_id = some v := by
  induction db with
  | nil => simp [get_user] at h
  | cons a rest ih =>
    by_cases ha : a.1 = user_id
    · simp [get_user, List.find?_cons, ha]
    · have ha' : (a.1 == user_id) = false := by simpa using ha
      simp only [get_user, List.map_cons, List.find?_cons, ha', if_neg,
        Bool.false_eq_true, ite_false] at h ⊢
      simpa [get_user, ha'] using ih (by simpa [get_user, ha'] using h)

lemma get_user_update_self (db : DB) (user_id : Nat) (v : String)
    (h : (get_user db user_id).isSome) :
    get_user (update_voice_actor db user_id v).1 user_id = some v := by
  unfold update_voice_actor
  rw [if_pos h]
  exact get_user_map_set db user_id v h

lemma get_user_map_set_isSome (db : DB) (u : Nat) (v : String) (user_id : Nat) :
    (get_user (db.map (fun p => if p.1 == u then (p.1, v) else p))
      user_id).isSome = (get_user db user_id).isSome := by
  induction db with
  | nil => rfl
  | cons a rest ih =>
    by_cases ha : a.1 = user_id
    · subst ha
      by_cases hu : a.1 = u <;> simp [get_user, List.find?_cons, hu]
    · have ha' : (a.1 == user_id) = false := by simpa using ha
      have hfst : ((if a.1 == u then (a.1, v) else a).1 == user_id) = false := by
        split <;> simpa using ha
      simp only [get_user, List.map_cons, List.find?_cons, hfst,
        Bool.false_eq_true, ite_false, ha']
      simpa [get_user] using ih

lemma get_user_update_isSome (db : DB) (u : Nat) (v : String) (user_id : Nat) :
    (get_user (update_voice_actor db u v).1 user_id).isSome
      = (get_user db user_id).isSome := by
  unfold update_voice_actor
  split_ifs with h
  · exact get_user_map_set_isSome db u v user_id
  · rfl

lemma get_user_applyUpdates_isSome (ops : List (Nat × String)) (db : DB)
    (user_id : Nat) :
    (get_user (applyUpdates db ops) user_id).isSome
      = (get_user db user_id).isSome := by
  induction ops generalizing db with
  | nil => rfl
  | cons op rest ih =>
    unfold applyUpdates
    rw [List.foldl_cons]
    have := ih (update_voice_actor db op.1 op.2).1
    unfold applyUpdates at this
    rw [this, get_user_update_isSome]

/-- C8: for every user present in the preference store and every valid voice
identifier `v`, `set_voice` (`update_voice_actor`) followed by `get_voice`
(`get_voice_actor`) returns `v`, and this round-trip still holds after any
prior sequence of voice selections applied to the store. -/
theorem set_get_voice_roundtrip (db : DB) (user_id : Nat)
    (ops : List (Nat × String)) (v : String)
    (hexists : (get_user db user_id).isSome)
    (hvalid : v ∈ ENG_VOICE_ACTORS) :
    get_voice_actor
        (update_voice_actor (applyUpdates db ops) user_id v).1 user_id
      = some v := by
  have hpres : (get_user (applyUpdates db ops) user_id).isSome := by
    rw [get_user_applyUpdates_isSome]; exact hexists
  exact get_user_update_self _ user_id v hpres

/-- Witness for C8 at a concrete store, update sequence and voice. -/
theorem set_get_voice_roundtrip_witness :
    get_voice_actor
        (update_voice_actor
          (applyUpdates [(7, "")] [(7, "Matthew"), (3, "Ivy")]) 7 "Joanna").1 7
      = some "Joanna" :=
  set_get_voice_roundtrip [(7, "")] 7 [(7, "Matthew"), (3, "Ivy")] "Joanna"
    (by decide) (by decide)

/-- C9 (code bug): in the settings voice-selection callback, when the user is
absent from the store, `update_voice_actor` reports failure (`false`) and
stores nothing, yet the handler — which discards that boolean — still replies
with the success confirmation, so the `not_found` failure is never surfaced to
the user. -/
theorem settings_callback_swallows_not_found :
    get_user [] 7 = none ∧
    (update_voice_actor [] 7 "Joanna").2 = false ∧
    (process_callback_button_settings [] 7 "Joanna").replies
      = [Reply.youHaveChosen "Joanna"] ∧
    (process_callback_button_settings [] 7 "Joanna").db = [] := by
  refine ⟨rfl, rfl, ?_, rfl⟩
  rfl

lemma get_user_append_new (db : DB) (user_id : Nat) (v : String)
    (h : get_user db user_id = none) :
    get_user (db ++ [(user_id, v)]) user_id = some v := by
  induction db with
  | nil => simp [get_user, List.find?_cons]
  | cons a rest ih =>
    by_cases ha : a.1 = user_id
    · simp [get_user, List.find?_cons, ha] at h
    · have ha' : (a.1 == user_id) = false := by simpa using ha
      simp only [get_user, List.cons_append, List.find?_cons, ha',
        Bool.false_eq_true, ite_false] at h ⊢
      exact ih (by simpa [get_user] using h)

/-- C10: a user created by `create_user` with the default empty voice has
`get_voice_actor` return `some ""` — the empty string, not an absent value —
and the synthesis entry handler treats that empty string exactly like an
absent voice: it sends the voice-selection prompt, identically to the handler
run against a store without the user. -/
theorem default_voice_empty_string_treated_absent (db : DB) (user_id : Nat)
    (s : Session) (h : get_user db user_id = none) :
    get_voice_actor (create_user db user_id "") user_id = some "" ∧
    isTruthy (get_voice_actor (create_user db user_id "") user_id) = false ∧
    text_to_speech_handler (create_user db user_id "") user_id s
      = plainReply s Reply.selectVoiceFirst ∧
    text_to_speech_handler (create_user db user_id "") user_id s
      = text_to_speech_handler db user_id s := by
  have hnone : (get_user db user_id).isSome = false := by
    rw [h]; rfl
  have hcreate : create_user db user_id "" = db ++ [(user_id, "")] := by
    unfold create_user
    rw [hnone]
    rfl
  have hget : get_voice_actor (create_user db user_id "") user_id = some "" := by
    rw [hcreate]
    exact get_user_append_new db user_id "" h
  refine ⟨hget, by rw [hget]; rfl, ?_, ?_⟩
  · unfold text_to_speech_handler
    rw [hget]
    rfl
  · unfold text_to_speech_handler
    rw [hget]
    show plainReply s Reply.selectVoiceFirst
      = if isTruthy (get_voice_actor db user_id) then plainReply s Reply.translatePrompt
        else plainReply s Reply.selectVoiceFirst
    unfold get_voice_actor
    rw [h]
    rfl

/-- Witness for C10 at a concrete store, user and session. -/
theorem default_voice_empty_string_treated_absent_witness :
    get_voice_actor (create_user [(3, "Ivy")] 7 "") 7 = some "" ∧
    isTruthy (get_voice_actor (create_user [(3, "Ivy")] 7 "") 7) = false ∧
    text_to_speech_handler (create_user [(3, "Ivy")] 7 "") 7 initialSession
      = plainReply initialSession Reply.selectVoiceFirst ∧
    text_to_speech_handler (create_user [(3, "Ivy")] 7 "") 7 initialSession
      = text_to_speech_handler [(3, "Ivy")] 7 initialSession :=
  default_voice_empty_string_treated_absent [(3, "Ivy")] 7 initialSession
    (by decide)

-- ------------------------------------------------------------------
-- Text accumulation and finalization
-- ------------------------------------------------------------------

/-- C1: during text accumulation with a non-empty language pair, a segment
whose detected language differs from the first selected language raises the
language-mismatch error, is not appended (the stored text is unchanged), and
the session stays in the text-accumulation state with the mismatch reply
shown; no external call is made. -/
theorem language_mismatch_rejects_segment (detect : String → String)
    (s : Session) (seg : String) (langs : List String)
    (hphase : s.phase = Phase.text)
    (hl : s.selected_languages = some langs) (hne : langs ≠ [])
    (hdet : detect seg ≠ langs.headD "") :
    (text_for_speech_handler detect s seg).raised = some Err.language ∧
    (text_for_speech_handler detect s seg).session.text = s.text ∧
    (text_for_speech_handler detect s seg).session.phase = Phase.text ∧
    (text_for_speech_handler detect s seg).session.selected_languages
      = s.selected_languages ∧
    (text_for_speech_handler detect s seg).replies
      = [Reply.languageErrorReply] ∧
    (text_for_speech_handler detect s seg).synthCalls = [] ∧
    (text_for_speech_handler detect s seg).translateCalls = [] := by
  have hcond : (s.selected_languages.getD [] ≠ [] ∧
      detect seg ≠ (s.selected_languages.getD []).headD "") := by
    rw [hl]
    exact ⟨hne, hdet⟩
  unfold text_for_speech_handler
  rw [if_pos hcond]
  exact ⟨rfl, rfl, rfl, rfl, rfl, rfl, rfl⟩

/-- Witness for C1: a French-detected segment against the pair `["en", "ru"]`. -/
theorem language_mismatch_rejects_segment_witness :
    (text_for_speech_handler (fun _ => "fr")
        ⟨Phase.text, some ["en", "ru"], some "hello"⟩ "bonjour").raised
      = some Err.language ∧
    (text_for_speech_handler (fun _ => "fr")
        ⟨Phase.text, some ["en", "ru"], some "hello"⟩ "bonjour").session.text
      = (⟨Phase.text, some ["en", "ru"], some "hello"⟩ : Session).text ∧
    (text_for_speech_handler (fun _ => "fr")
        ⟨Phase.text, some ["en", "ru"], some "hello"⟩ "bonjour").session.phase
      = Phase.text ∧
    (text_for_speech_handler (fun _ => "fr")
        ⟨Phase.text, some ["en", "ru"], some "hello"⟩
        "bonjour").session.selected_languages
      = (⟨Phase.text, some ["en", "ru"], some "hello"⟩ : Session).selected_languages ∧
    (text_for_speech_handler (fun _ => "fr")
        ⟨Phase.text, some ["en", "ru"], some "hello"⟩ "bonjour").replies
      = [Reply.languageErrorReply] ∧
    (text_for_speech_handler (fun _ => "fr")
        ⟨Phase.text, some ["en", "ru"], some "hello"⟩ "bonjour").synthCalls = [] ∧
    (text_for_speech_handler (fun _ => "fr")
        ⟨Phase.text, some ["en", "ru"], some "hello"⟩ "bonjour").translateCalls
      = [] :=
  language_mismatch_rejects_segment (fun _ => "fr")
    ⟨Phase.text, some ["en", "ru"], some "hello"⟩ "bonjour" ["en", "ru"]
    rfl rfl (by decide) (by decide)

/-- C2 counterexample: finalizing with empty accumulated text does produce the
nothing-to-convert reply and calls no external service, but — contrary to the
claim — the session state is NOT left unchanged: the handler's `finally`
clause clears it (the phase leaves text accumulation and the stored language
pair is erased). -/
theorem empty_convert_state_not_unchanged :
    (convert_text_to_speech (fun _ => "en") (fun t _ _ => t) [] 0
        ⟨Phase.text, some ["en", "ru"], none⟩).replies
      = [Reply.nothingToConvert] ∧
    (convert_text_to_speech (fun _ => "en") (fun t _ _ => t) [] 0
        ⟨Phase.text, some ["en", "ru"], none⟩).synthCalls = [] ∧
    (convert_text_to_speech (fun _ => "en") (fun t _ _ => t) [] 0
        ⟨Phase.text, some ["en", "ru"], none⟩).translateCalls = [] ∧
    (convert_text_to_speech (fun _ => "en") (fun t _ _ => t) [] 0
        ⟨Phase.text, some ["en", "ru"], none⟩).session
      ≠ (⟨Phase.text, some ["en", "ru"], none⟩ : Session) ∧
    (convert_text_to_speech (fun _ => "en") (fun t _ _ => t) [] 0
        ⟨Phase.text, some ["en", "ru"], none⟩).session.phase ≠ Phase.text := by
  refine ⟨rfl, rfl, rfl, ?_, ?_⟩ <;> decide

/-- C2 as amended: finalizing with empty accumulated text yields the
nothing-to-convert reply and invokes neither the translation nor the synthesis
service, but the session is cleared (state reset out of text accumulation,
data dict emptied) by the handler's `finally` clause rather than left
unchanged. -/
theorem empty_convert_nothing_and_clears (detect : String → String)
    (tr : String → String → String → String) (db : DB) (user_id : Nat)
    (s : Session) (hphase : s.phase = Phase.text)
    (htext : s.text.getD "" = "") :
    (convert_text_to_speech detect tr db user_id s).replies
      = [Reply.nothingToConvert] ∧
    (convert_text_to_speech detect tr db user_id s).translateCalls = [] ∧
    (convert_text_to_speech detect tr db user_id s).synthCalls = [] ∧
    (convert_text_to_speech detect tr db user_id s).raised = none ∧
    (convert_text_to_speech detect tr db user_id s).session = clearedSession := by
  unfold convert_text_to_speech
  rw [if_pos htext]
  exact ⟨rfl, rfl, rfl, rfl, rfl⟩

/-- Witness for the amended C2 at a concrete session. -/
theorem empty_convert_nothing_and_clears_witness :
    (convert_text_to_speech (fun _ => "en") (fun t _ _ => t) [(0, "Joanna")] 0
        ⟨Phase.text, some ["en", "ru"], some ""⟩).replies
      = [Reply.nothingToConvert] ∧
    (convert_text_to_speech (fun _ => "en") (fun t _ _ => t) [(0, "Joanna")] 0
        ⟨Phase.text, some ["en", "ru"], some ""⟩).translateCalls = [] ∧
    (convert_text_to_speech (fun _ => "en") (fun t _ _ => t) [(0, "Joanna")] 0
        ⟨Phase.text, some ["en", "ru"], some ""⟩).synthCalls = [] ∧
    (convert_text_to_speech (fun _ => "en") (fun t _ _ => t) [(0, "Joanna")] 0
        ⟨Phase.text, some ["en", "ru"], some ""⟩).raised = none ∧
    (convert_text_to_speech (fun _ => "en") (fun t _ _ => t) [(0, "Joanna")] 0
        ⟨Phase.text, some ["en", "ru"], some ""⟩).session = clearedSession :=
  empty_convert_nothing_and_clears (fun _ => "en") (fun t _ _ => t)
    [(0, "Joanna")] 0 ⟨Phase.text, some ["en", "ru"], some ""⟩ rfl rfl

/-- C3 counterexample: on a language-mismatch failure during finalization the
mismatch is propagated, no audio is synthesized and the session re-enters text
accumulation — but, contrary to the claim that no session data beyond the
accumulated text is lost, the stored language pair is lost as well: the
`finally` clause clears the whole data dict. -/
theorem finalize_mismatch_loses_language_pair :
    (convert_text_to_speech (fun _ => "fr") (fun t _ _ => t) [(0, "Joanna")] 0
        ⟨Phase.text, some ["en", "ru"], some "bonjour"⟩).raised
      = some Err.language ∧
    (convert_text_to_speech (fun _ => "fr") (fun t _ _ => t) [(0, "Joanna")] 0
        ⟨Phase.text, some ["en", "ru"], some "bonjour"⟩).synthCalls = [] ∧
    (convert_text_to_speech (fun _ => "fr") (fun t _ _ => t) [(0, "Joanna")] 0
        ⟨Phase.text, some ["en", "ru"], some "bonjour"⟩).session.phase
      = Phase.text ∧
    (⟨Phase.text, some ["en", "ru"], some "bonjour"⟩ : Session).selected_languages
      = some ["en", "ru"] ∧
    (convert_text_to_speech (fun _ => "fr") (fun t _ _ => t) [(0, "Joanna")] 0
        ⟨Phase.text, some ["en", "ru"], some "bonjour"⟩).session.selected_languages
      = none := by
  refine ⟨?_, ?_, ?_, rfl, ?_⟩ <;> rfl

/-- C3 as amended: when the translation step of finalization fails with a
language mismatch, the mismatch condition is propagated to the user, no audio
is synthesized, the translator is never invoked, and the session re-enters
text accumulation — but with its ENTIRE data dict cleared: the accumulated
text and also the selected language pair are lost. -/
theorem finalize_mismatch_propagates_and_clears (detect : String → String)
    (tr : String → String → String → String) (db : DB) (user_id : Nat)
    (s : Session) (l0 l1 : String) (rest : List String)
    (hphase : s.phase = Phase.text)
    (htext : s.text.getD "" ≠ "")
    (hlang : s.selected_languages.getD [] = l0 :: l1 :: rest)
    (hdet : detect (s.text.getD "") ≠ l0) :
    (convert_text_to_speech detect tr db user_id s).raised
      = some Err.language ∧
    (convert_text_to_speech detect tr db user_id s).replies
      = [Reply.languageErrorReply] ∧
    (convert_text_to_speech detect tr db user_id s).synthCalls = [] ∧
    (convert_text_to_speech detect tr db user_id s).translateCalls = [] ∧
    (convert_text_to_speech detect tr db user_id s).session
      = ⟨Phase.text, none, none⟩ := by
  unfold convert_text_to_speech
  rw [if_neg htext, hlang]
  simp only [ne_eq]
  rw [if_pos hdet]
  exact ⟨rfl, rfl, rfl, rfl, rfl⟩

/-- Witness for the amended C3. -/
theorem finalize_mismatch_propagates_and_clears_witness :
    (convert_text_to_speech (fun _ => "fr") (fun t _ _ => t ++ "!")
        [(0, "Joanna")] 0 ⟨Phase.text, some ["en", "ru"], some "bonjour"⟩).raised
      = some Err.language ∧
    (convert_text_to_speech (fun _ => "fr") (fun t _ _ => t ++ "!")
        [(0, "Joanna")] 0 ⟨Phase.text, some ["en", "ru"], some "bonjour"⟩).replies
      = [Reply.languageErrorReply] ∧
    (convert_text_to_speech (fun _ => "fr") (fun t _ _ => t ++ "!")
        [(0, "Joanna")] 0
        ⟨Phase.text, some ["en", "ru"], some "bonjour"⟩).synthCalls = [] ∧
    (convert_text_to_speech (fun _ => "fr") (fun t _ _ => t ++ "!")
        [(0, "Joanna")] 0
        ⟨Phase.text, some ["en", "ru"], some "bonjour"⟩).translateCalls = [] ∧
    (convert_text_to_speech (fun _ => "fr") (fun t _ _ => t ++ "!")
        [(0, "Joanna")] 0
        ⟨Phase.text, some ["en", "ru"], some "bonjour"⟩).session
      = ⟨Phase.text, none, none⟩ :=
  finalize_mismatch_propagates_and_clears (fun _ => "fr") (fun t _ _ => t ++ "!")
    [(0, "Joanna")] 0 ⟨Phase.text, some ["en", "ru"], some "bonjour"⟩
    "en" "ru" [] rfl (by decide) rfl (by decide)

/-- C4: when finalization runs with a selected language pair whose target is
`"ru"` and the detected source matches, the synthesis service is invoked with
the translated text and the fixed override voice `"Tatyana"`, whatever voice
the preference store holds for the user. -/
theorem ru_target_forces_tatyana_voice (detect : String → String)
    (tr : String → String → String → String) (db : DB) (user_id : Nat)
    (s : Session) (l0 : String) (rest : List String)
    (hphase : s.phase = Phase.text)
    (htext : s.text.getD "" ≠ "")
    (hlang : s.selected_languages.getD [] = l0 :: "ru" :: rest)
    (hdet : detect (s.text.getD "") = l0) :
    (convert_text_to_speech detect tr db user_id s).synthCalls
      = [(tr (s.text.getD "") l0 "ru", some "Tatyana")] ∧
    (convert_text_to_speech detect tr db user_id s).translateCalls
      = [(s.text.getD "", l0, "ru")] := by
  unfold convert_text_to_speech
  rw [if_neg htext, hlang]
  simp only [ne_eq]
  rw [if_neg (by simp [hdet])]
  exact ⟨rfl, rfl⟩

/-- Witness for C4 with a stored voice `"Joanna"` overridden by `"Tatyana"`. -/
theorem ru_target_forces_tatyana_voice_witness :
    (convert_text_to_speech (fun _ => "en") (fun t _ _ => t ++ "!")
        [(5, "Joanna")] 5 ⟨Phase.text, some ["en", "ru"], some "hi"⟩).synthCalls
      = [("hi" ++ "!", some "Tatyana")] ∧
    (convert_text_to_speech (fun _ => "en") (fun t _ _ => t ++ "!")
        [(5, "Joanna")] 5
        ⟨Phase.text, some ["en", "ru"], some "hi"⟩).translateCalls
      = [("hi", "en", "ru")] :=
  ru_target_forces_tatyana_voice (fun _ => "en") (fun t _ _ => t ++ "!")
    [(5, "Joanna")] 5 ⟨Phase.text, some ["en", "ru"], some "hi"⟩ "en" []
    rfl (by decide) rfl rfl

/-- C7: for a user whose stored voice is absent or empty, the synthesis flow
entry leaves the session untouched (so a machine in the idle state stays
idle), sends the voice-selection prompt, and makes no external call. -/
theorem no_voice_prompts_selection (db : DB) (user_id : Nat) (s : Session)
    (hvoice : isTruthy (get_voice_actor db user_id) = false)
    (hidle : s.phase = Phase.idle) :
    (text_to_speech_handler db user_id s).session = s ∧
    (text_to_speech_handler db user_id s).session.phase = Phase.idle ∧
    (text_to_speech_handler db user_id s).replies = [Reply.selectVoiceFirst] ∧
    (text_to_speech_handler db user_id s).synthCalls = [] ∧
    (text_to_speech_handler db user_id s).translateCalls = [] := by
  simp only [text_to_speech_handler, hvoice, Bool.false_eq_true, if_false]
  exact ⟨rfl, hidle, rfl, rfl, rfl⟩

/-- Witness for C7: a user absent from the store, idle session. -/
theorem no_voice_prompts_selection_witness :
    (text_to_speech_handler [(3, "Ivy")] 7 initialSession).session
      = initialSession ∧
    (text_to_speech_handler [(3, "Ivy")] 7 initialSession).session.phase
      = Phase.idle ∧
    (text_to_speech_handler [(3, "Ivy")] 7 initialSession).replies
      = [Reply.selectVoiceFirst] ∧
    (text_to_speech_handler [(3, "Ivy")] 7 initialSession).synthCalls = [] ∧
    (text_to_speech_handler [(3, "Ivy")] 7 initialSession).translateCalls
      = [] :=
  no_voice_prompts_selection [(3, "Ivy")] 7 initialSession (by decide) rfl

-- ------------------------------------------------------------------
-- Accumulation without translation (C5)
-- ------------------------------------------------------------------

lemma append_space_append_ne_empty (t seg : String) : t ++ " " ++ seg ≠ "" := by
  intro h
  have hlen := congrArg String.length h
  rw [String.length_append, String.length_append] at hlen
  have h1 : (" " : String).length = 1 := rfl
  have h0 : ("" : String).length = 0 := rfl
  omega

lemma foldl_joinStep_eq (segs : List String) :
    ∀ t, t ≠ "" → List.foldl joinStep t segs = joinedBySpace (t :: segs) := by
  induction segs with
  | nil => intro t ht; rfl
  | cons seg rest ih =>
    intro t ht
    rw [List.foldl_cons]
    have hstep : joinStep t seg = t ++ " " ++ seg := by
      unfold joinStep
      rw [if_pos ht]
    rw [hstep, ih (t ++ " " ++ seg) (append_space_append_ne_empty t seg)]
    cases rest with
    | nil => rfl
    | cons r rs =>
      show t ++ " " ++ seg ++ " " ++ joinedBySpace (r :: rs)
        = t ++ " " ++ (seg ++ " " ++ joinedBySpace (r :: rs))
      simp [String.append_assoc]

lemma accumulate_cons (detect : String → String) (s : Session) (seg : String)
    (rest : List String) :
    accumulate detect s (seg :: rest)
      = accumulate detect (text_for_speech_handler detect s seg).session rest :=
  rfl

lemma accumulate_no_translation (detect : String → String) :
    ∀ (segs : List String) (s : Session),
      s.selected_languages.getD [] = [] →
      (accumulate detect s segs).text.getD ""
          = List.foldl joinStep (s.text.getD "") segs ∧
      (accumulate detect s segs).selected_languages = s.selected_languages ∧
      (accumulate detect s segs).phase = s.phase := by
  intro segs
  induction segs with
  | nil => intro s _; exact ⟨rfl, rfl, rfl⟩
  | cons seg rest ih =>
    intro s h
    have hcond : ¬(s.selected_languages.getD [] ≠ [] ∧
        detect seg ≠ (s.selected_languages.getD []).headD "") := by
      rw [h]; simp
    have hstep : (text_for_speech_handler detect s seg).session
        = { s with text := some (joinStep (s.text.getD "") seg) } := by
      unfold text_for_speech_handler
      rw [if_neg hcond]
      rfl
    rw [accumulate_cons, hstep]
    obtain ⟨h1, h2, h3⟩ :=
      ih { s with text := some (joinStep (s.text.getD "") seg) } (by exact h)
    exact ⟨by rw [h1, List.foldl_cons]; rfl, by exact h2, by exact h3⟩

/-- C5: during accumulation with no translation requested (empty selected
languages), every submitted non-empty segment is accepted whatever its
detected language — the detector `detect` is universally quantified — and the
final accumulated text is the space-joined concatenation of the segments in
arrival order; the phase stays at text accumulation and the language selection
is untouched. -/
theorem accumulation_joins_segments (detect : String → String) (s : Session)
    (segs : List String)
    (hphase : s.phase = Phase.text)
    (hlang : s.selected_languages.getD [] = [])
    (htext : s.text.getD "" = "")
    (hne : ∀ seg ∈ segs, seg ≠ "") :
    (accumulate detect s segs).text.getD "" = joinedBySpace segs ∧
    (accumulate detect s segs).phase = Phase.text ∧
    (accumulate detect s segs).selected_languages = s.selected_languages := by
  obtain ⟨h1, h2, h3⟩ := accumulate_no_translation detect segs s hlang
  refine ⟨?_, by rw [h3, hphase], h2⟩
  rw [h1, htext]
  cases segs with
  | nil => rfl
  | cons seg rest =>
    rw [List.foldl_cons]
    have hseg : seg ≠ "" := hne seg (by simp)
    have hfirst : joinStep "" seg = seg := by
      unfold joinStep
      simp
    rw [hfirst]
    exact foldl_joinStep_eq rest seg hseg

/-- Witness for C5: two segments accumulate to their space-joined form under a
detector that reports a language unrelated to the text. -/
theorem accumulation_joins_segments_witness :
    (accumulate (fun _ => "fr") ⟨Phase.text, some [], none⟩
        ["hello", "world"]).text.getD ""
      = joinedBySpace ["hello", "world"] ∧
    (accumulate (fun _ => "fr") ⟨Phase.text, some [], none⟩
        ["hello", "world"]).phase = Phase.text ∧
    (accumulate (fun _ => "fr") ⟨Phase.text, some [], none⟩
        ["hello", "world"]).selected_languages
      = (⟨Phase.text, some [], none⟩ : Session).selected_languages :=
  accumulation_joins_segments (fun _ => "fr") ⟨Phase.text, some [], none⟩
    ["hello", "world"] rfl rfl rfl (by decide)

-- ------------------------------------------------------------------
-- Session invariant (C6)
-- ------------------------------------------------------------------

lemma text_to_speech_handler_session (db : DB) (user_id : Nat) (s : Session) :
    (text_to_speech_handler db user_id s).session = s := by
  cases h : isTruthy (get_voice_actor db user_id) <;>
    simp [text_to_speech_handler, h, plainReply]

lemma convert_clears_languages (detect : String → String)
    (tr : String → String → String → String) (db : DB) (user_id : Nat)
    (s : Session) :
    (convert_text_to_speech detect tr db user_id s).session.selected_languages
      = none ∧
    (convert_text_to_speech detect tr db user_id s).session.phase
      ≠ Phase.selected_languages := by
  by_cases htext : s.text.getD "" = ""
  · unfold convert_text_to_speech
    rw [if_pos htext]
    exact ⟨rfl, fun hc => nomatch hc⟩
  · cases hl : s.selected_languages.getD [] with
    | nil =>
      unfold convert_text_to_speech
      rw [if_neg htext, hl]
      exact ⟨rfl, fun hc => nomatch hc⟩
    | cons l0 rest =>
      cases rest with
      | nil =>
        unfold convert_text_to_speech
        rw [if_neg htext, hl]
        exact ⟨rfl, fun hc => nomatch hc⟩
      | cons l1 rest2 =>
        unfold convert_text_to_speech
        rw [if_neg htext, hl]
        simp only [ne_eq]
        by_cases hdet : detect (s.text.getD "") = l0
        · rw [if_neg (not_not_intro hdet)]
          exact ⟨rfl, fun hc => nomatch hc⟩
        · rw [if_pos hdet]
          exact ⟨rfl, fun hc => nomatch hc⟩

lemma process_language_selection_eq_of_some (s : Session) (msg code : String)
    (l : List String) (hcode : lookupLanguage msg = some code)
    (hl : s.selected_languages = some l) :
    process_language_selection s msg =
      if (l ++ [code]).length = 1 then
        { session := { s with selected_languages := some (l ++ [code]) },
          replies := [Reply.selectTargetLanguage],
          translateCalls := [], synthCalls := [], raised := none }
      else
        { session := { s with phase := Phase.text,
                              selected_languages := some (l ++ [code]) },
          replies := [Reply.typeTextPrompt],
          translateCalls := [], synthCalls := [], raised := none } := by
  unfold process_language_selection
  rw [hcode, hl]

lemma sessionInv_process_language_selection (s : Session) (msg : String)
    (hph : s.phase = Phase.selected_languages) (h : sessionInv s) :
    sessionInv (process_language_selection s msg).session := by
  obtain ⟨l, hl, hlen⟩ := h.2 hph
  cases hcode : lookupLanguage msg with
  | none =>
    have : process_language_selection s msg = plainReply s Reply.invalidLanguage := by
      unfold process_language_selection
      rw [hcode]
    rw [this]
    exact h
  | some code =>
    rw [process_language_selection_eq_of_some s msg code l hcode hl]
    have hc2 : (l ++ [code]).length ≤ 2 := by
      simp
      omega
    by_cases hlen1 : (l ++ [code]).length = 1
    · rw [if_pos hlen1]
      refine ⟨?_, fun _ => ⟨l ++ [code], rfl, by omega⟩⟩
      intro l2 hl2
      cases hl2
      omega
    · rw [if_neg hlen1]
      refine ⟨?_, fun hx => nomatch hx⟩
      intro l2 hl2
      cases hl2
      exact hc2

lemma sessionInv_text_for_speech (detect : String → String) (s : Session)
    (msg : String) (h : sessionInv s) :
    sessionInv (text_for_speech_handler detect s msg).session := by
  unfold text_for_speech_handler
  by_cases hc : (s.selected_languages.getD [] ≠ [] ∧
      detect msg ≠ (s.selected_languages.getD []).headD "")
  · rw [if_pos hc]
    exact ⟨h.1, fun hx => nomatch hx⟩
  · rw [if_neg hc]
    exact ⟨h.1, fun hx => h.2 hx⟩

lemma sessionInv_dispatch (detect : String → String)
    (tr : String → String → String → String) (db : DB) (user_id : Nat)
    (s : Session) (msg : String) (h : sessionInv s) :
    sessionInv (dispatch detect tr db user_id s msg).session := by
  unfold dispatch
  by_cases h1 : msg = "/start"
  · rw [if_pos h1]; exact h
  rw [if_neg h1]
  by_cases h2 : msg = "Settings"
  · rw [if_pos h2]; exact h
  rw [if_neg h2]
  by_cases h3 : msg = "Change voice actor"
  · rw [if_pos h3]; exact h
  rw [if_neg h3]
  by_cases h4 : msg = "⬅️ Main menu"
  · rw [if_pos h4]
    exact ⟨(fun l hl => nomatch hl), (fun hx => nomatch hx)⟩
  rw [if_neg h4]
  by_cases h5 : msg = "Synthesize text into voice"
  · rw [if_pos h5, text_to_speech_handler_session]
    exact h
  rw [if_neg h5]
  by_cases h6 : msg = "No"
  · rw [if_pos h6]
    exact ⟨h.1, fun hx => nomatch hx⟩
  rw [if_neg h6]
  by_cases h7 : msg = "Yes"
  · rw [if_pos h7]
    exact ⟨fun l hl => by cases hl; decide, fun _ => ⟨[], rfl, by decide⟩⟩
  rw [if_neg h7]
  by_cases h8 : s.phase = Phase.selected_languages
  · rw [if_pos h8]
    exact sessionInv_process_language_selection s msg h8 h
  rw [if_neg h8]
  by_cases h9 : msg = "From english to russian"
  · rw [if_pos h9]
    exact ⟨fun l hl => by cases hl; decide, fun hx => nomatch hx⟩
  rw [if_neg h9]
  by_cases h10 : msg = "From russian to english"
  · rw [if_pos h10]
    exact ⟨fun l hl => by cases hl; decide, fun hx => nomatch hx⟩
  rw [if_neg h10]
  by_cases h11 : msg = "Convert it" ∧ s.phase = Phase.text
  · rw [if_pos h11]
    obtain ⟨hc1, hc2⟩ := convert_clears_languages detect tr db user_id s
    exact ⟨fun l hl => absurd (hc1 ▸ hl) (by simp), fun hx => absurd hx hc2⟩
  rw [if_neg h11]
  by_cases h12 : s.phase = Phase.text
  · rw [if_pos h12]
    exact sessionInv_text_for_speech detect s msg h
  rw [if_neg h12]
  exact h

lemma reachable_sessionInv (detect : String → String)
    (tr : String → String → String → String) (db : DB) (user_id : Nat)
    (s : Session) (h : Reachable detect tr db user_id s) : sessionInv s := by
  induction h with
  | init => exact ⟨(fun l hl => nomatch hl), (fun hx => nomatch hx)⟩
  | step s' msg _ ih => exact sessionInv_dispatch detect tr db user_id s' msg ih

/-- C6 counterexample: after answering Yes to translation and picking the
source language English, the session — reachable from the fresh session — is
in the language-selection state with `selected_languages = ["en"]`, a list of
length 1: neither empty nor of exactly 2 entries, refuting the claimed
invariant. -/
theorem singleton_languages_reachable :
    Reachable (fun _ => "en") (fun t _ _ => t) [] 0
      ⟨Phase.selected_languages, some ["en"], none⟩ ∧
    ¬((((⟨Phase.selected_languages, some ["en"], none⟩ : Session)
          |>.selected_languages.getD []).length = 0) ∨
      (((⟨Phase.selected_languages, some ["en"], none⟩ : Session)
          |>.selected_languages.getD []).length = 2)) := by
  constructor
  · have h1 : Reachable (fun _ => "en") (fun t _ _ => t) [] 0
        ⟨Phase.selected_languages, some [], none⟩ :=
      Reachable.step initialSession "Yes" Reachable.init
    exact Reachable.step ⟨Phase.selected_languages, some [], none⟩ "English" h1
  · decide

/-- C6 as amended: in every reachable session state, `selected_languages` has
at most 2 entries — it is empty, or the full source/target pair, or (while the
target language is still pending, or after leaving the selection flow early) a
singleton holding only the source code. -/
theorem reachable_languages_at_most_two (detect : String → String)
    (tr : String → String → String → String) (db : DB) (user_id : Nat)
    (s : Session) (h : Reachable detect tr db user_id s) :
    (s.selected_languages.getD []).length ≤ 2 := by
  have hinv := reachable_sessionInv detect tr db user_id s h
  cases hl : s.selected_languages with
  | none => simp
  | some l => simpa using hinv.1 l hl

/-- Witness for the amended C6 at the fresh session. -/
theorem reachable_languages_at_most_two_witness :
    ((initialSession).selected_languages.getD []).length ≤ 2 :=
  reachable_languages_at_most_two (fun _ => "en") (fun t _ _ => t) [] 0
    initialSession Reachable.init

end Speechify
